import Mathlib

/-!
Verification development for the caladrius training/evaluation loop
(`src/caladrius/model/trainer.py`).  The Python code is shallowly embedded:
tensors become a shape-plus-flat-data structure over `ℚ`, fallible
operations return `Option`/`Except`, and the collaborators that the
trainer only calls through narrow interfaces (the network forward pass,
`torch.rand`, `nn.functional.softmax`) are passed in as function
parameters.
-/

namespace Caladrius

/-- Shallow embedding of a `torch` tensor: a shape (list of dimension
sizes) together with the flat row-major data.  Rational numbers stand in
for the floating-point entries. -/
structure Tensor where
  shape : List ℕ
  data : List ℚ
deriving DecidableEq

/-- `Tensor.squeeze()` : removes every dimension of size 1 from the shape;
the flat data is unchanged (trainer.py line 122 and 136). -/
def squeeze (t : Tensor) : Tensor :=
  ⟨t.shape.filter (fun d => d ≠ 1), t.data⟩

/-- `outputs.clamp(0, 1)` : clamp every entry into `[0, 1]`
(trainer.py line 143). -/
def clamp01 (t : Tensor) : Tensor :=
  ⟨t.shape, t.data.map (fun x => max 0 (min 1 x))⟩

/-- Index of the first maximal entry of a row, matching `torch.max`'s
convention that the index of the first maximal value is returned. -/
def argmaxIdx (l : List ℚ) : ℕ :=
  match l.enum with
  | [] => 0
  | p :: rest => (rest.foldl (fun acc q => if q.2 > acc.2 then q else acc) p).1

/-- Split a flat list into consecutive chunks of length `n` (the rows of a
`[b, n]`-shaped tensor). -/
def chunksOf (n : ℕ) : List α → List (List α)
  | [] => []
  | x :: xs =>
    if _h : n = 0 then []
    else (x :: xs).take n :: chunksOf n ((x :: xs).drop n)
termination_by l => l.length
decreasing_by
  simp only [List.length_drop, List.length_cons]
  omega

/-- `torch.max(t, 1)`, returning only the index tensor (`preds`): for a
rank-2 tensor of shape `[b, c]` it yields the per-row argmax indices, of
shape `[b]`.  For a tensor of rank 0 or 1 — which is what a squeezed
batch-of-one network output is — dimension 1 does not exist and `torch`
raises `IndexError`, modelled as `none`.  (Rank ≥ 3 never occurs in this
code: network outputs have rank at most 2.) -/
def torchMaxDim1 (t : Tensor) : Option Tensor :=
  match t.shape with
  | [b, c] =>
    if c = 0 then none
    else some ⟨[b], (chunksOf c t.data).map (fun r => (argmaxIdx r : ℚ))⟩
  | _ => none

/-- The trainer state assembled by `QuasiSiameseNetwork.__init__`
(trainer.py lines 31–81), restricted to the fields that the output
strategy and epoch runner read.  `n_classes` is only assigned in the
classification branch (line 51), hence the `Option`. -/
structure QSNConfig where
  output_type : String
  model_type : String
  is_neural_model : Bool
  is_statistical_model : Bool
  n_classes : Option ℕ
  criterion : String
deriving DecidableEq

/-- `QuasiSiameseNetwork.__init__` (trainer.py lines 31–81): the
constructor only branches on `output_type` (lines 46–54).  When
`output_type` is neither `"regression"` nor `"classification"`, neither
`self.criterion` nor `self.model` is assigned, and the constructor itself
then fails with `AttributeError` at line 65 (`self.model.parameters()`).
`model_type` is never validated here: it only selects the light
architecture (line 41) and is stored verbatim (line 78). -/
def initQSN (output_type model_type : String)
    (is_neural is_statistical : Bool) : Except String QSNConfig :=
  if output_type = "regression" then
    .ok ⟨output_type, model_type, is_neural, is_statistical, none, "MSELoss"⟩
  else if output_type = "classification" then
    .ok ⟨output_type, model_type, is_neural, is_statistical, some 4,
      "CrossEntropyLoss"⟩
  else
    .error "AttributeError: self.model was never assigned"

/-- First mode of a list, as Python's `statistics.mode`: the value with
the greatest multiplicity, the first such value in data order winning
ties; `statistics.mode` raises `StatisticsError` on an empty list. -/
def pyMode (l : List ℚ) : Option ℚ :=
  match l with
  | [] => none
  | x :: xs =>
    some (xs.foldl (fun best y => if l.count y > l.count best then y else best) x)

/-- Python `int(q)`: truncation toward zero. -/
def pyInt (q : ℚ) : ℚ := ((Int.tdiv q.num (q.den : ℤ) : ℤ) : ℚ)

/-- `calculate_average_label` (trainer.py lines 95–104): the arithmetic
mean of the training labels for regression (`statistics.mean`), the
truncated mode for classification (`int(mode(...))`).  An unrecognized
`output_type` leaves `average_label` unbound (`UnboundLocalError`),
modelled as `none`. -/
def calculateAverageLabel (output_type : String) (labels : List ℚ) : Option ℚ :=
  if output_type = "regression" then
    match labels with
    | [] => none
    | _ => some (labels.sum / (labels.length : ℚ))
  else if output_type = "classification" then
    (pyMode labels).map pyInt
  else none

/-- `get_average_output_values` (trainer.py lines 86–93).  Regression:
`torch.ones(output_size) * average_label`.  Classification: a one-hot
vector at index `average_label` repeated `output_size[0]` times; the
indexing `average_label_tensor[average_label] = 1` requires the label to
be a valid (non-negative, in-range) integer index, otherwise `torch`
raises, modelled as `none`. -/
def getAverageOutputValues (cfg : QSNConfig) (output_size : List ℕ)
    (average_label : ℚ) : Option Tensor :=
  if cfg.output_type = "regression" then
    some ⟨output_size, List.replicate output_size.prod average_label⟩
  else if cfg.output_type = "classification" then
    match cfg.n_classes, output_size with
    | some n, b :: _ =>
      if 0 ≤ average_label.num ∧ average_label.den = 1 ∧
          average_label.num.toNat < n then
        some ⟨[b, n],
          (List.replicate b ((List.range n).map
            (fun i => if i = average_label.num.toNat then (1 : ℚ) else 0))).flatten⟩
      else none
    | _, _ => none
  else none

/-- The `outputs`-producing `if`/`elif` chain of `get_outputs_preds`
(trainer.py lines 121–138).  The network `net`, the softmax collaborator
`softmaxT` (`nn.functional.softmax(·, dim=1)`) and the random generator
`rand` (`torch.rand`) are abstract parameters.  When no branch matches,
the local `outputs` is never bound and line 138
(`outputs.to(self.device)`) raises `UnboundLocalError`, modelled as
`none`; `.to(device)` itself is the identity in this model. -/
def outputsBranch (cfg : QSNConfig) (net : Tensor → Tensor → Tensor)
    (softmaxT : Tensor → Tensor) (rand : List ℕ → Tensor)
    (average_label : ℚ) (image1 image2 : Tensor)
    (random_target_shape average_target_size : List ℕ) : Option Tensor :=
  if cfg.is_neural_model then
    some (squeeze (net image1 image2))
  else if cfg.model_type = "random" then
    if cfg.output_type = "regression" then
      some (rand random_target_shape)
    else
      match random_target_shape, cfg.n_classes with
      | b :: _, some n => some (rand [b, n])
      | _, _ => none
  else if cfg.model_type = "average" then
    getAverageOutputValues cfg average_target_size average_label
  else if cfg.model_type = "probability" then
    some (squeeze (softmaxT (net image1 image2)))
  else none

/-- The discretization step of `get_outputs_preds` (trainer.py lines
140–145): classification takes `torch.max(outputs, 1)` indices,
everything else clamps the raw outputs into `[0, 1]`. -/
def discretize (cfg : QSNConfig) (outputs : Tensor) :
    Option (Tensor × Tensor) :=
  if cfg.output_type = "classification" then
    (torchMaxDim1 outputs).bind (fun preds => some (outputs, preds))
  else
    some (outputs, clamp01 outputs)

/-- `get_outputs_preds` (trainer.py lines 118–145): produce the raw
outputs, then discretize them into the stored predictions. -/
def getOutputsPreds (cfg : QSNConfig) (net : Tensor → Tensor → Tensor)
    (softmaxT : Tensor → Tensor) (rand : List ℕ → Tensor)
    (average_label : ℚ) (image1 image2 : Tensor)
    (random_target_shape average_target_size : List ℕ) :
    Option (Tensor × Tensor) :=
  (outputsBranch cfg net softmaxT rand average_label image1 image2
      random_target_shape average_target_size).bind
    (discretize cfg)

/-- A `(precision, recall, f1)` triple, one of the three averaging groups
of the score tuple. -/
def Triple : Type := ℚ × ℚ × ℚ

instance : DecidableEq Triple := instDecidableEqProd

/-- The score tuple returned by `RollingEval.add`/`RollingEval.score`
(spec §4.1): `(accuracy, correct_count, total_count, micro triple,
macro triple, weighted triple)`, indexed 0–5 in the Python tuple. -/
def EpochScore : Type := ℚ × ℕ × ℕ × Triple × Triple × Triple

instance : DecidableEq EpochScore := instDecidableEqProd

/-- Entry 3 of the score tuple: the micro-averaged triple. -/
def microGroup (s : EpochScore) : Triple := s.2.2.2.1

/-- Entry 4 of the score tuple: the macro-averaged triple. -/
def macGroup (s : EpochScore) : Triple := s.2.2.2.2.1

/-- Entry 5 of the score tuple: the frequency-weighted triple. -/
def wtdGroup (s : EpochScore) : Triple := s.2.2.2.2.2

/-- Python `str.split(sep)` on a character list: splits at every
occurrence of `sep`, keeping empty pieces (`"a_b".split("_") ==
["a", "b"]`, `"ab".split("_") == ["ab"]`, `"a__b".split("_") ==
["a", "", "b"]`). -/
def splitChars (sep : Char) : List Char → List (List Char)
  | [] => [[]]
  | c :: cs =>
    if c = sep then [] :: splitChars sep cs
    else
      match splitChars sep cs with
      | [] => [[c]]
      | w :: ws => (c :: w) :: ws

/-- `selection_metric.split("_")` unpacked into exactly two names
(trainer.py line 274): `second_index_key, first_index_key =
selection_metric.split("_")`; any other number of parts raises
`ValueError`, modelled as `none`. -/
def splitSelection (s : String) : Option (String × String) :=
  match (splitChars '_' s.toList).map (fun w => String.mk w) with
  | [a, b] => some (a, b)
  | _ => none

/-- The dict `first_index = {"micro": 3, "macro": 4, "weighted": 5}`
(trainer.py line 276); a missing key raises `KeyError`, modelled by
`List.lookup` returning `none`. -/
def firstIndexMap : List (String × ℕ) :=
  [("micro", 3), ("macro", 4), ("weighted", 5)]

/-- The dict `second_index = {"precision": 0, "recall": 1, "f1": 2}`
(trainer.py line 277). -/
def secondIndexMap : List (String × ℕ) :=
  [("precision", 0), ("recall", 1), ("f1", 2)]

/-- `epoch_score[first_index[first_index_key]]` (trainer.py line 279):
tuple positions 3, 4, 5 hold the micro, macro and weighted triples. -/
def scoreGroupAt (s : EpochScore) : ℕ → Option Triple
  | 3 => some (microGroup s)
  | 4 => some (macGroup s)
  | 5 => some (wtdGroup s)
  | _ => none

/-- `[second_index[second_index_key]]` (trainer.py line 280): positions
0, 1, 2 of an averaging triple are precision, recall, f1. -/
def tripleAt (t : Triple) : ℕ → Option ℚ
  | 0 => some t.1
  | 1 => some t.2.1
  | 2 => some t.2.2
  | _ => none

/-- `epoch_main_metric` (trainer.py lines 274–281): split the selection
specifier, look both halves up in the index dicts, and index into the
accumulated score tuple. -/
def epochMainMetric (selection_metric : String) (s : EpochScore) : Option ℚ := do
  let (second_index_key, first_index_key) ← splitSelection selection_metric
  let i ← List.lookup first_index_key firstIndexMap
  let j ← List.lookup second_index_key secondIndexMap
  let g ← scoreGroupAt s i
  tripleAt g j

/-- Nearest-integer decision for a continuous prediction, used by the
regression evaluator. -/
def nearestInt (q : ℚ) : ℚ := (round q : ℤ)

/-- Modelled from the spec: the per-sample discretization the evaluator
applies before scoring (`RollingEval` lives in `model/evaluate.py`, which
is not part of the sources here; spec §4.1: "For regression,
accuracy/precision/recall/f1 are computed after discretizing continuous
predictions to a nearest-label decision", rendered as rounding the
prediction to the nearest integer label; classification pairs are used
directly). -/
def discretizePair (output_type : String) (p : ℚ × ℚ) : ℚ × ℚ :=
  if output_type = "regression" then (p.1, nearestInt p.2) else p

/-- Modelled from the spec: the score tuple over an accumulated multiset
of `(label, prediction)` pairs (spec §4.1, `model/evaluate.py` missing
from the sources).  `accuracy = correct/total`; micro metrics aggregate
TP/FP/FN counts across all observed classes before dividing; macro
metrics average the per-class precision/recall/f1 unweighted over the
observed classes; weighted metrics average them weighted by true-label
frequency.  A zero denominator yields 0 by convention (`ℚ` division by
zero is 0). -/
def scoreOf (output_type : String) (m0 : Multiset (ℚ × ℚ)) : EpochScore :=
  let m := m0.map (discretizePair output_type)
  let total : ℕ := Multiset.card m
  let correct : ℕ := m.countP (fun p => p.1 = p.2)
  let accuracy : ℚ := (correct : ℚ) / (total : ℚ)
  let classes : Finset ℚ :=
    (m.map Prod.fst).toFinset ∪ (m.map Prod.snd).toFinset
  let tp : ℚ → ℕ := fun c => m.countP (fun p => p.1 = c ∧ p.2 = c)
  let fpc : ℚ → ℕ := fun c => m.countP (fun p => p.1 ≠ c ∧ p.2 = c)
  let fnc : ℚ → ℕ := fun c => m.countP (fun p => p.1 = c ∧ p.2 ≠ c)
  let freq : ℚ → ℕ := fun c => m.countP (fun p => p.1 = c)
  let prec : ℚ → ℚ := fun c => (tp c : ℚ) / ((tp c : ℚ) + (fpc c : ℚ))
  let recl : ℚ → ℚ := fun c => (tp c : ℚ) / ((tp c : ℚ) + (fnc c : ℚ))
  let f1 : ℚ → ℚ :=
    fun c => 2 * prec c * recl c / (prec c + recl c)
  let sumTp : ℚ := ∑ c ∈ classes, (tp c : ℚ)
  let sumFp : ℚ := ∑ c ∈ classes, (fpc c : ℚ)
  let sumFn : ℚ := ∑ c ∈ classes, (fnc c : ℚ)
  let microP : ℚ := sumTp / (sumTp + sumFp)
  let microR : ℚ := sumTp / (sumTp + sumFn)
  let microF : ℚ := 2 * microP * microR / (microP + microR)
  let nCls : ℚ := (classes.card : ℚ)
  let macP : ℚ := (∑ c ∈ classes, prec c) / nCls
  let macR : ℚ := (∑ c ∈ classes, recl c) / nCls
  let macF : ℚ := (∑ c ∈ classes, f1 c) / nCls
  let wP : ℚ := (∑ c ∈ classes, (freq c : ℚ) * prec c) / (total : ℚ)
  let wR : ℚ := (∑ c ∈ classes, (freq c : ℚ) * recl c) / (total : ℚ)
  let wF : ℚ := (∑ c ∈ classes, (freq c : ℚ) * f1 c) / (total : ℚ)
  (accuracy, correct, total, (microP, microR, microF),
    (macP, macR, macF), (wP, wR, wF))

/-- Modelled from the spec: the state of the Rolling Evaluator
(`RollingEval` in `model/evaluate.py`, missing from the sources; spec
§3/§4.1): the output type it was constructed with, the running
sample-count-weighted total loss, the running sample count, and the
confusion accumulation — the multiset of `(true label, prediction)`
pairs seen so far. -/
structure RollingEval where
  outputType : String
  totalLoss : ℚ
  count : ℕ
  pairs : Multiset (ℚ × ℚ)

/-- Modelled from the spec: `RollingEval(output_type)` starts empty. -/
def RollingEval.init (output_type : String) : RollingEval :=
  ⟨output_type, 0, 0, 0⟩

/-- Modelled from the spec: `RollingEval.add(labels, predictions,
batch_loss)` (spec §4.1): ingests one batch, weighting the batch-mean
loss by the batch's sample count (so `loss()` is the sample-weighted
running mean), accumulating the `(label, prediction)` pairs, and
returning the batch-local score tuple. -/
def RollingEval.add (st : RollingEval) (labels preds : List ℚ)
    (batch_loss : ℚ) : RollingEval × EpochScore :=
  ({ st with
      totalLoss := st.totalLoss + batch_loss * (labels.length : ℚ)
      count := st.count + labels.length
      pairs := st.pairs + ↑(labels.zip preds) },
    scoreOf st.outputType ↑(labels.zip preds))

/-- Modelled from the spec: `RollingEval.loss()` — cumulative loss
divided by cumulative sample count (spec §4.1). -/
def RollingEval.loss (st : RollingEval) : ℚ := st.totalLoss / (st.count : ℚ)

/-- Modelled from the spec: `RollingEval.score()` — the score tuple over
all samples seen so far (spec §4.1). -/
def RollingEval.score (st : RollingEval) : EpochScore :=
  scoreOf st.outputType st.pairs

/-- One epoch sample as the evaluator sees it: its true label, the
discretized prediction stored for it, and its individual loss. -/
structure Sample where
  label : ℚ
  pred : ℚ
  lossv : ℚ
deriving DecidableEq

/-- The `(label, prediction)` pair of a sample. -/
def pairOf (s : Sample) : ℚ × ℚ := (s.label, s.pred)

/-- The batch loss the epoch runner passes to `add` (trainer.py lines
201, 221–222): `criterion(outputs, labels).item()` with the default
`mean` reduction, i.e. the arithmetic mean of the per-sample losses. -/
def meanLoss (b : List Sample) : ℚ :=
  (b.map Sample.lossv).sum / (b.length : ℚ)

/-- One iteration of the epoch loop as the evaluator sees it
(trainer.py line 222): `rolling_eval.add(labels, preds, batch_loss)`. -/
def feedStep (st : RollingEval) (b : List Sample) : RollingEval :=
  (st.add (b.map Sample.label) (b.map Sample.pred) (meanLoss b)).1

/-- One epoch of `rolling_eval.add` calls (trainer.py line 222): fold the
batches of the epoch into a fresh evaluator, feeding each batch's labels,
predictions and batch-mean loss. -/
def feedEpoch (output_type : String) (batches : List (List Sample)) :
    RollingEval :=
  batches.foldl feedStep (RollingEval.init output_type)

/-- A line of the per-epoch prediction text file. -/
inductive PredLine where
  /-- The header `"filename label prediction\n"` (trainer.py line 113). -/
  | header : PredLine
  /-- One `"{filename} {label} {prediction}\n"` sample line
  (trainer.py lines 210–219). -/
  | sample (filename : String) (label pred : ℚ) : PredLine
  /-- The trailer `"Epoch {:03d} ({}) {}: {:.4f}\n"` (trainer.py lines
  286–290), carrying the epoch number, the averaging qualifier, the
  metric name and the selected metric value. -/
  | trailer (epoch : ℕ) (qualifier metricName : String) (value : ℚ) : PredLine
deriving DecidableEq

/-- What `run_epoch` leaves in the prediction file: either text lines, or
(for the probability model type) a single pickled list of per-sample
probability vectors (trainer.py lines 111–116, 283–290). -/
inductive PredFileContent where
  | text (lines : List PredLine) : PredFileContent
  | dump (vectors : List (List ℚ)) : PredFileContent
deriving DecidableEq

/-- The per-batch values the epoch runner writes out: the filenames, the
flattened label and prediction lists (`labels.view(-1).tolist()`,
`preds.view(-1).tolist()`) and the per-sample output rows
(`outputs.tolist()`). -/
structure BatchOut where
  filenames : List String
  labels : List ℚ
  preds : List ℚ
  outputs : List (List ℚ)

/-- The sample lines one batch contributes (trainer.py lines 210–219):
`zip(filename, labels.view(-1).tolist(), preds.view(-1).tolist())`,
truncating to the shortest as Python `zip` does. -/
def sampleLines (b : BatchOut) : List PredLine :=
  (b.filenames.zip (b.labels.zip b.preds)).map
    (fun x => PredLine.sample x.1 x.2.1 x.2.2)

/-- The prediction-file side of `run_epoch` (trainer.py lines 176,
207–219, 274–292): the header is written at file creation unless the
model type is `"probability"`; each batch appends its sample lines (or,
for probability, extends `output_probability_list` with the raw output
rows); after the loop the selected metric is computed — failing on an
invalid `selection_metric`, before anything final is written — and
either the probability list is pickled or the trailer line is
appended. -/
def runEpochPredFile (model_type : String) (epoch : ℕ)
    (selection_metric : String) (s : EpochScore) (batches : List BatchOut) :
    Option PredFileContent := do
  let (second_index_key, first_index_key) ← splitSelection selection_metric
  let v ← epochMainMetric selection_metric s
  if model_type = "probability" then
    some (.dump (batches.map BatchOut.outputs).flatten)
  else
    some (.text ([.header] ++ (batches.map sampleLines).flatten ++
      [.trailer epoch first_index_key second_index_key v]))

/-- `nn.functional.softmax(·, dim=1)` on one row of class logits
(trainer.py line 136): the normalized exponential. -/
noncomputable def softmaxRow (n : ℕ) (v : Fin n → ℝ) : Fin n → ℝ :=
  fun i => Real.exp (v i) / ∑ j, Real.exp (v j)

/-- The checkpoint policy of `QuasiSiameseNetwork.train` (trainer.py
lines 331–334 and 371–380), abstracted over the sequence of per-epoch
validation scores: `best_validation_score` starts at `0.0`, and the
model weights are saved exactly when `validation_score >
best_validation_score`, which then becomes the new best.  Returns the
(1-based) epochs at which a checkpoint write happens. -/
def checkpointEpochsAux (best : ℚ) (epoch : ℕ) : List ℚ → List ℕ
  | [] => []
  | v :: rest =>
    if best < v then epoch :: checkpointEpochsAux v (epoch + 1) rest
    else checkpointEpochsAux best (epoch + 1) rest

/-- The epochs (1-based) at which `train` writes a checkpoint, given the
validation scores of epochs 1, 2, …. -/
def checkpointEpochs (scores : List ℚ) : List ℕ :=
  checkpointEpochsAux 0 1 scores

/-- The phase argument of `run_epoch` (trainer.py line 166 asserts it is
one of these three). -/
inductive Phase where
  | train : Phase
  | validation : Phase
  | test : Phase
deriving DecidableEq

/-- The parameter/side-effect skeleton of `run_epoch` (trainer.py lines
166–205), abstracted over the batch type `B`, the parameter type `P`, the
output type `O` and the gradient type `G`.  `forward mode p b` is the
model applied in training (`mode = true`, line 172) or eval (`mode =
false`, line 170) mode; `lossGrad` is the gradient `loss.backward()`
computes and `optStep` the optimizer update, both run only under `if
phase == "train"` (lines 203–205).  The result is the final parameters,
the forward outputs in batch order, and the number of backward+step
updates performed. -/
def runEpochStep {B P O G : Type} (forward : Bool → P → B → O)
    (lossGrad : P → B → G) (optStep : P → G → P) (phase : Phase)
    (st : P × List O × ℕ) (b : B) : P × List O × ℕ :=
  let out := forward (phase = Phase.train) st.1 b
  if phase = Phase.train then
    (optStep st.1 (lossGrad st.1 b), st.2.1 ++ [out], st.2.2 + 1)
  else
    (st.1, st.2.1 ++ [out], st.2.2)

/-- Folding the per-batch step over the epoch's batches, starting from
the incoming parameters, no outputs and no optimizer steps taken. -/
def runEpochState {B P O G : Type} (forward : Bool → P → B → O)
    (lossGrad : P → B → G) (optStep : P → G → P)
    (phase : Phase) (p0 : P) (batches : List B) : P × List O × ℕ :=
  batches.foldl (runEpochStep forward lossGrad optStep phase) (p0, [], 0)

/-- An empty placeholder tensor, used to instantiate image arguments in
concrete evaluations. -/
def tEmpty : Tensor := ⟨[], []⟩

/-- A trivial network collaborator for concrete evaluations. -/
def netZ : Tensor → Tensor → Tensor := fun _ _ => tEmpty

/-- A trivial `torch.rand` collaborator for concrete evaluations: returns
a tensor with the requested shape and no data. -/
def randZ : List ℕ → Tensor := fun s => ⟨s, []⟩

/-- The configuration `initQSN "regression" "average" false true`
produces: the `average` statistical baseline in regression mode. -/
def cfgAvgReg : QSNConfig :=
  ⟨"regression", "average", false, true, none, "MSELoss"⟩

/-- The configuration `initQSN "classification" "average" false true`
produces: the `average` statistical baseline in classification mode. -/
def cfgAvgCls : QSNConfig :=
  ⟨"classification", "average", false, true, some 4, "CrossEntropyLoss"⟩

/-- The configuration for a learned (`inception`) classification model. -/
def cfgNeuCls : QSNConfig :=
  ⟨"classification", "inception", true, false, some 4, "CrossEntropyLoss"⟩

/-- The configuration `initQSN "regression" "banana" false false`
produces: an unrecognized model type that passes construction. -/
def cfgBanana : QSNConfig :=
  ⟨"regression", "banana", false, false, none, "MSELoss"⟩

/-- The one-hot row `torch.zeros(n)[k] = 1` builds
(trainer.py lines 90–91). -/
def oneHot (n k : ℕ) : List ℚ :=
  (List.range n).map (fun i => if i = k then (1 : ℚ) else 0)

theorem feed_outputType (P : List (List Sample)) (st : RollingEval) :
    (P.foldl feedStep st).outputType = st.outputType := by
  induction P generalizing st with
  | nil => rfl
  | cons b P ih => simpa [feedStep, RollingEval.add] using ih _

theorem feed_count (P : List (List Sample)) (st : RollingEval) :
    (P.foldl feedStep st).count = st.count + P.flatten.length := by
  induction P generalizing st with
  | nil => simp
  | cons b P ih =>
    simp only [List.foldl_cons, ih, feedStep, RollingEval.add,
      List.flatten_cons, List.length_append, List.length_map]
    omega

theorem feed_pairs (P : List (List Sample)) (st : RollingEval) :
    (P.foldl feedStep st).pairs = st.pairs + ↑(P.flatten.map pairOf) := by
  induction P generalizing st with
  | nil => simp
  | cons b P ih =>
    simp only [List.foldl_cons, ih, feedStep, RollingEval.add,
      List.flatten_cons, List.map_append]
    rw [List.zip_map' Sample.label Sample.pred b]
    have : (fun s : Sample => (s.label, s.pred)) = pairOf := rfl
    rw [this, ← Multiset.coe_add, add_assoc]

theorem feed_totalLoss (P : List (List Sample)) (st : RollingEval)
    (hP : ∀ b ∈ P, b ≠ []) :
    (P.foldl feedStep st).totalLoss =
      st.totalLoss + (P.flatten.map Sample.lossv).sum := by
  induction P generalizing st with
  | nil => simp
  | cons b P ih =>
    have hb : b ≠ [] := hP b (List.mem_cons_self b P)
    have hlen : ((b.length : ℚ)) ≠ 0 := by
      simpa using hb
    have hmean : meanLoss b * ((b.map Sample.label).length : ℚ) =
        (b.map Sample.lossv).sum := by
      simp only [meanLoss, List.length_map]
      exact div_mul_cancel₀ _ hlen
    simp only [List.foldl_cons, ih _ (fun x hx => hP x (List.mem_cons_of_mem _ hx)),
      feedStep, RollingEval.add, List.flatten_cons, List.map_append,
      List.sum_append, hmean]
    ring

/-- C1: For every epoch's sequence of samples, the epoch-level `loss()`
and `score()` produced by the Rolling Evaluator after feeding all samples
via `add()` depend only on the multiset of (label, prediction, per-sample
loss) triples, not on how the samples are grouped into batches: any two
batch partitions of the same samples (all batches non-empty, as a data
loader delivers them) yield the same `loss()` — the sample-count-weighted
mean — and the same `score()` tuple. -/
theorem rollingEval_batch_invariance (output_type : String)
    (P Q : List (List Sample))
    (hP : ∀ b ∈ P, b ≠ []) (hQ : ∀ b ∈ Q, b ≠ [])
    (h : (↑P.flatten : Multiset Sample) = ↑Q.flatten) :
    (feedEpoch output_type P).loss = (feedEpoch output_type Q).loss ∧
    (feedEpoch output_type P).score = (feedEpoch output_type Q).score := by
  have hlen : P.flatten.length = Q.flatten.length := by
    have := congrArg Multiset.card h
    simpa using this
  have hsum : (P.flatten.map Sample.lossv).sum =
      (Q.flatten.map Sample.lossv).sum := by
    have := congrArg (fun m => (Multiset.map Sample.lossv m).sum) h
    simpa [Multiset.map_coe, Multiset.sum_coe] using this
  have hpairs : (↑(P.flatten.map pairOf) : Multiset (ℚ × ℚ)) =
      ↑(Q.flatten.map pairOf) := by
    have := congrArg (Multiset.map pairOf) h
    simpa [Multiset.map_coe] using this
  constructor
  · show (P.foldl feedStep (RollingEval.init output_type)).loss =
      (Q.foldl feedStep (RollingEval.init output_type)).loss
    unfold RollingEval.loss
    rw [feed_totalLoss _ _ hP, feed_totalLoss _ _ hQ, feed_count, feed_count,
      hsum, hlen]
  · show (P.foldl feedStep (RollingEval.init output_type)).score =
      (Q.foldl feedStep (RollingEval.init output_type)).score
    unfold RollingEval.score
    rw [feed_outputType, feed_outputType, feed_pairs, feed_pairs, hpairs]

/-- Witness for C1: the three samples `(0,0,1)`, `(1,1,2)`, `(1,2,3)`
batched as `[2-batch, 1-batch]` or regrouped/reordered as
`[1-batch, 2-batch]` give the same epoch loss and score. -/
theorem rollingEval_batch_invariance_witness :
    (∀ b ∈ [[(⟨0, 0, 1⟩ : Sample), ⟨1, 1, 2⟩], [⟨1, 2, 3⟩]], b ≠ []) ∧
    (↑([[(⟨0, 0, 1⟩ : Sample), ⟨1, 1, 2⟩], [⟨1, 2, 3⟩]].flatten) :
        Multiset Sample) =
      ↑([[(⟨1, 2, 3⟩ : Sample)], [⟨1, 1, 2⟩, ⟨0, 0, 1⟩]].flatten) ∧
    (feedEpoch "classification"
        [[⟨0, 0, 1⟩, ⟨1, 1, 2⟩], [⟨1, 2, 3⟩]]).loss =
      (feedEpoch "classification"
        [[⟨1, 2, 3⟩], [⟨1, 1, 2⟩, ⟨0, 0, 1⟩]]).loss ∧
    (feedEpoch "classification"
        [[⟨0, 0, 1⟩, ⟨1, 1, 2⟩], [⟨1, 2, 3⟩]]).score =
      (feedEpoch "classification"
        [[⟨1, 2, 3⟩], [⟨1, 1, 2⟩, ⟨0, 0, 1⟩]]).score :=
  ⟨by decide, by decide,
    rollingEval_batch_invariance "classification"
      [[⟨0, 0, 1⟩, ⟨1, 1, 2⟩], [⟨1, 2, 3⟩]]
      [[⟨1, 2, 3⟩], [⟨1, 1, 2⟩, ⟨0, 0, 1⟩]]
      (by decide) (by decide) (by decide)⟩

theorem mem_checkpointEpochsAux (l : List ℚ) :
    ∀ (best : ℚ) (e k : ℕ),
      k ∈ checkpointEpochsAux best e l ↔
        ∃ i, ∃ hi : i < l.length, k = e + i ∧
          (l.take i).foldl max best < l.get ⟨i, hi⟩ := by
  induction l with
  | nil => intro best e k; simp [checkpointEpochsAux]
  | cons v l ih =>
    intro best e k
    simp only [checkpointEpochsAux]
    by_cases hbv : best < v
    · simp only [if_pos hbv, List.mem_cons, ih]
      constructor
      · rintro (rfl | ⟨i, hi, rfl, hlt⟩)
        · exact ⟨0, by simp, by simp, by simpa using hbv⟩
        · refine ⟨i + 1, by simpa using Nat.succ_lt_succ hi, by omega, ?_⟩
          simpa [List.take_succ_cons, max_eq_right hbv.le] using hlt
      · rintro ⟨i, hi, rfl, hlt⟩
        match i, hi with
        | 0, _ => exact Or.inl (by omega)
        | i + 1, hi =>
          refine Or.inr ⟨i, by simp only [List.length_cons] at hi; omega,
            by omega, ?_⟩
          simpa [List.take_succ_cons, max_eq_right hbv.le] using hlt
    · simp only [if_neg hbv, ih]
      constructor
      · rintro ⟨i, hi, rfl, hlt⟩
        refine ⟨i + 1, by simpa using Nat.succ_lt_succ hi, by omega, ?_⟩
        simpa [List.take_succ_cons, max_eq_left (not_lt.mp hbv)] using hlt
      · rintro ⟨i, hi, rfl, hlt⟩
        match i, hi with
        | 0, _ => exact absurd (by simpa using hlt) hbv
        | i + 1, hi =>
          refine ⟨i, by simp only [List.length_cons] at hi; omega,
            by omega, ?_⟩
          simpa [List.take_succ_cons, max_eq_left (not_lt.mp hbv)] using hlt

theorem checkpointEpochsAux_of_le (l : List ℚ) :
    ∀ (best : ℚ) (e : ℕ), (∀ x ∈ l, x ≤ best) →
      checkpointEpochsAux best e l = [] := by
  induction l with
  | nil => intro best e _; rfl
  | cons v l ih =>
    intro best e hle
    have hv : v ≤ best := hle v (List.mem_cons_self v l)
    simp only [checkpointEpochsAux, if_neg (not_lt.mpr hv)]
    exact ih best (e + 1) (fun x hx => hle x (List.mem_cons_of_mem _ hx))

/-- Counterexample for C2: the all-zero validation-score sequence over 5
epochs is monotonically non-increasing, yet `train` writes no checkpoint
at all — `best_validation_score` starts at `0.0` (trainer.py line 331)
and `validation_score > best_validation_score` (line 371) never holds —
so the claim's "exactly one checkpoint write, at epoch 1" fails. -/
theorem checkpoint_claim_counterexample :
    List.Pairwise (fun a b : ℚ => b ≤ a) [0, 0, 0, 0, 0] ∧
    ([(0 : ℚ), 0, 0, 0, 0]).length = 5 ∧
    checkpointEpochs [0, 0, 0, 0, 0] = [] ∧
    (1 : ℕ) ∉ checkpointEpochs [0, 0, 0, 0, 0] := by
  refine ⟨by decide, by decide, by decide, by decide⟩

/-- C2 (amended): in `train()`, a checkpoint is written at epoch `i+1`
when and only when that epoch's validation score strictly exceeds the
best validation score seen so far, where the best starts at `0.0` — i.e.
strictly exceeds the maximum of `0` and all previous scores; ties and
decreases never trigger a write.  Consequently a monotonically
non-increasing sequence of validation scores over 5 epochs yields exactly
one checkpoint write, at epoch 1, provided the first score is strictly
positive; a sequence that never exceeds `0.0` (e.g. all zeros) yields no
write at all. -/
theorem checkpoint_on_strict_improvement :
    (∀ (scores : List ℚ) (i : ℕ) (hi : i < scores.length),
        (i + 1) ∈ checkpointEpochs scores ↔
          (scores.take i).foldl max 0 < scores.get ⟨i, hi⟩) ∧
    (∀ (v : ℚ) (rest : List ℚ), (v :: rest).length = 5 →
        List.Pairwise (fun a b : ℚ => b ≤ a) (v :: rest) → 0 < v →
        checkpointEpochs (v :: rest) = [1]) := by
  constructor
  · intro scores i hi
    rw [checkpointEpochs, mem_checkpointEpochsAux]
    constructor
    · rintro ⟨j, hj, hij, hlt⟩
      obtain rfl : j = i := by omega
      exact hlt
    · intro hlt
      exact ⟨i, hi, by omega, hlt⟩
  · intro v rest _ hpw hv
    obtain ⟨hle, -⟩ := List.pairwise_cons.mp hpw
    simp only [checkpointEpochs, checkpointEpochsAux, if_pos hv]
    rw [checkpointEpochsAux_of_le rest v 2 hle]

/-- Witness for C2: on the strictly-decreasing positive score sequence
`[3, 2, 2, 1, 0]` the hypotheses hold and exactly one checkpoint is
written, at epoch 1; and the membership characterization is inhabited at
`[2, 1]`, epoch 1. -/
theorem checkpoint_on_strict_improvement_witness :
    (0 : ℕ) < ([(2 : ℚ), 1]).length ∧
    ((0 + 1) ∈ checkpointEpochs [(2 : ℚ), 1] ↔
      (([(2 : ℚ), 1]).take 0).foldl max 0 <
        ([(2 : ℚ), 1]).get ⟨0, by decide⟩) ∧
    ([(3 : ℚ), 2, 2, 1, 0]).length = 5 ∧
    List.Pairwise (fun a b : ℚ => b ≤ a) [3, 2, 2, 1, 0] ∧
    (0 : ℚ) < 3 ∧
    checkpointEpochs [(3 : ℚ), 2, 2, 1, 0] = [1] :=
  ⟨by decide,
    checkpoint_on_strict_improvement.1 [(2 : ℚ), 1] 0 (by decide),
    by decide, by decide, by decide,
    checkpoint_on_strict_improvement.2 3 [2, 2, 1, 0] (by decide)
      (by decide) (by decide)⟩

theorem chunksOf_append {α : Type} (n : ℕ) (hn : 0 < n) (r rest : List α)
    (hr : r.length = n) : chunksOf n (r ++ rest) = r :: chunksOf n rest := by
  have hne : r ≠ [] := by
    intro h
    rw [h] at hr
    simp at hr
    omega
  obtain ⟨x, xs, rfl⟩ := List.exists_cons_of_ne_nil hne
  rw [List.cons_append, chunksOf]
  rw [← List.cons_append, List.take_left' hr, List.drop_left' hr]
  simp [Nat.pos_iff_ne_zero.mp hn]

theorem chunksOf_flatten_replicate {α : Type} (n : ℕ) (hn : 0 < n)
    (r : List α) (hr : r.length = n) (b : ℕ) :
    chunksOf n (List.replicate b r).flatten = List.replicate b r := by
  induction b with
  | zero => rw [List.replicate_zero, List.flatten_nil, chunksOf]
  | succ b ih =>
    rw [List.replicate_succ, List.flatten_cons, chunksOf_append n hn r _ hr, ih]

theorem argmaxIdx_oneHot (k : ℕ) (hk : k < 4) : argmaxIdx (oneHot 4 k) = k := by
  interval_cases k <;> decide

/-- Counterexample for C3: for the `average` model in regression mode
with training labels `[1, 1, 1, 2, 3]`, the mean is `8/5 = 1.6` and the
raw outputs are `1.6`, but the stored prediction for each sample is the
clamp `1.0` (trainer.py line 143), not `1.6` as the claim states. -/
theorem average_claim_counterexample :
    calculateAverageLabel "regression" [1, 1, 1, 2, 3] = some (8 / 5) ∧
    getOutputsPreds cfgAvgReg netZ id randZ (8 / 5) tEmpty tEmpty [2] [2] =
      some (⟨[2], [8 / 5, 8 / 5]⟩, ⟨[2], [1, 1]⟩) ∧
    (Tensor.mk [2] [1, 1]) ≠ (Tensor.mk [2] [8 / 5, 8 / 5]) := by
  refine ⟨?_, ?_, ?_⟩
  · norm_num [calculateAverageLabel]
  · simp [getOutputsPreds, outputsBranch, discretize, cfgAvgReg,
      getAverageOutputValues, clamp01]
    norm_num
  · simp only [ne_eq, Tensor.mk.injEq, not_and]
    intro _
    norm_num

/-- C3 (amended): for the `average` model type, the raw outputs broadcast
the dataset-wide average label computed from the training split — the
arithmetic mean for regression, the mode for classification.  The stored
predictions, however, go through the common discretization step: for
regression every prediction is the mean clamped into `[0, 1]` (so a mean
of 1.6 is stored as 1.0; the prediction equals the mean only when the
mean already lies in `[0, 1]`), and for classification every prediction
is the argmax of the one-hot row, i.e. exactly the mode. -/
theorem average_baseline_predictions :
    (∀ (labels : List ℚ) (m : ℚ) (b : ℕ) (net : Tensor → Tensor → Tensor)
        (sm : Tensor → Tensor) (rand : List ℕ → Tensor) (i1 i2 : Tensor)
        (rts : List ℕ),
        calculateAverageLabel "regression" labels = some m →
        getOutputsPreds cfgAvgReg net sm rand m i1 i2 rts [b] =
          some (⟨[b], List.replicate b m⟩,
            ⟨[b], List.replicate b (max 0 (min 1 m))⟩)) ∧
    (∀ (k b : ℕ) (net : Tensor → Tensor → Tensor) (sm : Tensor → Tensor)
        (rand : List ℕ → Tensor) (i1 i2 : Tensor) (rts : List ℕ), k < 4 →
        getOutputsPreds cfgAvgCls net sm rand (k : ℚ) i1 i2 rts [b] =
          some (⟨[b, 4], (List.replicate b (oneHot 4 k)).flatten⟩,
            ⟨[b], List.replicate b (k : ℚ)⟩)) := by
  constructor
  · intro labels m b net sm rand i1 i2 rts _hcalc
    simp [getOutputsPreds, outputsBranch, discretize, cfgAvgReg,
      getAverageOutputValues, clamp01, List.map_replicate]
  · intro k b net sm rand i1 i2 rts hk
    have hrow : (List.range 4).map (fun i => if i = k then (1 : ℚ) else 0) =
        oneHot 4 k := rfl
    simp only [getOutputsPreds, outputsBranch, discretize, cfgAvgCls,
      getAverageOutputValues]
    simp only [Rat.num_natCast, Rat.den_natCast, Int.toNat_natCast, hrow]
    simp only [torchMaxDim1]
    simp [hk, chunksOf_flatten_replicate 4 (by norm_num) (oneHot 4 k)
        (by simp [oneHot]) b,
      List.map_replicate, argmaxIdx_oneHot k hk]

/-- Witness for C3: training labels `[1, 1, 1, 2, 3]` (regression, mean
`8/5`, batch of 2) and `[0, 0, 1, 2]` (classification, mode `0`, batch of
2), evaluated through the amended theorem. -/
theorem average_baseline_predictions_witness :
    calculateAverageLabel "regression" [1, 1, 1, 2, 3] = some (8 / 5) ∧
    getOutputsPreds cfgAvgReg netZ id randZ (8 / 5) tEmpty tEmpty [2] [2] =
      some (⟨[2], List.replicate 2 (8 / 5 : ℚ)⟩,
        ⟨[2], List.replicate 2 (max 0 (min 1 (8 / 5 : ℚ)))⟩) ∧
    calculateAverageLabel "classification" [0, 0, 1, 2] = some ((0 : ℕ) : ℚ) ∧
    (0 : ℕ) < 4 ∧
    getOutputsPreds cfgAvgCls netZ id randZ ((0 : ℕ) : ℚ) tEmpty tEmpty
        [2] [2] =
      some (⟨[2, 4], (List.replicate 2 (oneHot 4 0)).flatten⟩,
        ⟨[2], List.replicate 2 ((0 : ℕ) : ℚ)⟩) :=
  ⟨by norm_num [calculateAverageLabel],
    average_baseline_predictions.1 [1, 1, 1, 2, 3] (8 / 5) 2 netZ id randZ
      tEmpty tEmpty [2] (by norm_num [calculateAverageLabel]),
    by decide, by decide,
    average_baseline_predictions.2 0 2 netZ id randZ tEmpty tEmpty [2]
      (by decide)⟩

/-- C4: for every regression-mode call to `get_outputs_preds` that
returns, the stored prediction is the raw output clamped entrywise into
`[0, 1]` — in particular a raw output of `1.4` is stored as `1.0` and
`-0.3` as `0.0` — and for classification mode the prediction is the
`torch.max(·, 1)` argmax index tensor of the outputs. -/
theorem preds_discretization :
    (∀ (cfg : QSNConfig) (net : Tensor → Tensor → Tensor)
        (sm : Tensor → Tensor) (rand : List ℕ → Tensor) (avg : ℚ)
        (i1 i2 : Tensor) (rts ats : List ℕ) (o p : Tensor),
        cfg.output_type = "regression" →
        getOutputsPreds cfg net sm rand avg i1 i2 rts ats = some (o, p) →
        p = clamp01 o) ∧
    (∀ (cfg : QSNConfig) (net : Tensor → Tensor → Tensor)
        (sm : Tensor → Tensor) (rand : List ℕ → Tensor) (avg : ℚ)
        (i1 i2 : Tensor) (rts ats : List ℕ) (o p : Tensor),
        cfg.output_type = "classification" →
        getOutputsPreds cfg net sm rand avg i1 i2 rts ats = some (o, p) →
        torchMaxDim1 o = some p) ∧
    clamp01 ⟨[2], [7 / 5, -3 / 10]⟩ = ⟨[2], [1, 0]⟩ := by
  refine ⟨?_, ?_, ?_⟩
  · intro cfg net sm rand avg i1 i2 rts ats o p hreg hsome
    obtain ⟨out, -, hk⟩ := Option.bind_eq_some.mp hsome
    rw [discretize, hreg] at hk
    rw [if_neg (by decide : ¬("regression" : String) = "classification")]
      at hk
    obtain ⟨rfl, rfl⟩ := Prod.mk.injEq .. ▸ Option.some.injEq .. ▸ hk
    rfl
  · intro cfg net sm rand avg i1 i2 rts ats o p hcls hsome
    obtain ⟨out, -, hk⟩ := Option.bind_eq_some.mp hsome
    rw [discretize, hcls, if_pos rfl] at hk
    obtain ⟨pr, hpr, hk2⟩ := Option.bind_eq_some.mp hk
    obtain ⟨rfl, rfl⟩ := Prod.mk.injEq .. ▸ Option.some.injEq .. ▸ hk2
    exact hpr
  · simp [clamp01]
    norm_num

/-- Witness for C4: a concrete regression call (the `average` baseline
with mean `8/5` over a batch of 2) whose prediction is the clamp of its
output, evaluated through the theorem. -/
theorem preds_discretization_witness :
    cfgAvgReg.output_type = "regression" ∧
    getOutputsPreds cfgAvgReg netZ id randZ (8 / 5) tEmpty tEmpty [2] [2] =
      some (⟨[2], [8 / 5, 8 / 5]⟩, ⟨[2], [1, 1]⟩) ∧
    (Tensor.mk [2] [1, 1]) = clamp01 ⟨[2], [8 / 5, 8 / 5]⟩ :=
  ⟨rfl,
    by
      simp [getOutputsPreds, outputsBranch, discretize, cfgAvgReg,
        getAverageOutputValues, clamp01]
      norm_num,
    preds_discretization.1 cfgAvgReg netZ id randZ (8 / 5) tEmpty tEmpty
      [2] [2] ⟨[2], [8 / 5, 8 / 5]⟩ ⟨[2], [1, 1]⟩ rfl
      (by
        simp [getOutputsPreds, outputsBranch, discretize, cfgAvgReg,
          getAverageOutputValues, clamp01]
        norm_num)⟩

theorem epochMainMetric_eval (sel a b : String) (s : EpochScore) (i j : ℕ)
    (h1 : splitSelection sel = some (a, b))
    (h2 : List.lookup b firstIndexMap = some i)
    (h3 : List.lookup a secondIndexMap = some j) :
    epochMainMetric sel s = (scoreGroupAt s i).bind (fun g => tripleAt g j) :=
  by simp [epochMainMetric, h1, h2, h3]

/-- C5: for every valid selection-metric string
`{precision|recall|f1}_{micro|macro|weighted}` and every accumulated
score tuple, `run_epoch`'s finalization returns exactly the named
component of the named averaging group — e.g. `"recall_micro"` returns
the recall entry of the micro triple, `score[3][1]`. -/
theorem selection_metric_indexing (s : EpochScore) :
    epochMainMetric "precision_micro" s = some (microGroup s).1 ∧
    epochMainMetric "recall_micro" s = some (microGroup s).2.1 ∧
    epochMainMetric "f1_micro" s = some (microGroup s).2.2 ∧
    epochMainMetric "precision_macro" s = some (macGroup s).1 ∧
    epochMainMetric "recall_macro" s = some (macGroup s).2.1 ∧
    epochMainMetric "f1_macro" s = some (macGroup s).2.2 ∧
    epochMainMetric "precision_weighted" s = some (wtdGroup s).1 ∧
    epochMainMetric "recall_weighted" s = some (wtdGroup s).2.1 ∧
    epochMainMetric "f1_weighted" s = some (wtdGroup s).2.2 :=
  ⟨(epochMainMetric_eval _ "precision" "micro" s 3 0 (by decide) (by decide)
      (by decide)).trans rfl,
    (epochMainMetric_eval _ "recall" "micro" s 3 1 (by decide) (by decide)
      (by decide)).trans rfl,
    (epochMainMetric_eval _ "f1" "micro" s 3 2 (by decide) (by decide)
      (by decide)).trans rfl,
    (epochMainMetric_eval _ "precision" "macro" s 4 0 (by decide) (by decide)
      (by decide)).trans rfl,
    (epochMainMetric_eval _ "recall" "macro" s 4 1 (by decide) (by decide)
      (by decide)).trans rfl,
    (epochMainMetric_eval _ "f1" "macro" s 4 2 (by decide) (by decide)
      (by decide)).trans rfl,
    (epochMainMetric_eval _ "precision" "weighted" s 5 0 (by decide)
      (by decide) (by decide)).trans rfl,
    (epochMainMetric_eval _ "recall" "weighted" s 5 1 (by decide) (by decide)
      (by decide)).trans rfl,
    (epochMainMetric_eval _ "f1" "weighted" s 5 2 (by decide) (by decide)
      (by decide)).trans rfl⟩

/-- Counterexample for C6: the unrecognized model type `"banana"` (with
the neural flag unset) is accepted by the constructor — `__init__` never
validates `model_type` — and it is the per-batch `get_outputs_preds`
that then fails (`outputs` is never bound, `UnboundLocalError` at
trainer.py line 138); so the failure is at batch time, not at
construction time as the claim states. -/
theorem config_error_claim_counterexample :
    initQSN "regression" "banana" false false = .ok cfgBanana ∧
    getOutputsPreds cfgBanana netZ id randZ 0 tEmpty tEmpty [2] [2] =
      none :=
  ⟨rfl, by decide⟩

/-- C6 (amended): an unrecognized `output_type` is fatal at construction
time — neither `self.criterion` nor `self.model` is assigned and
`__init__` itself raises — but an unrecognized `model_type` is not: the
constructor accepts any `model_type` (for both recognized output types),
and when the neural flag is unset and the model type is none of
`random`/`average`/`probability`, it is the per-batch output computation
`get_outputs_preds` that fails (no branch binds `outputs`). -/
theorem config_error_timing :
    (∀ (ot mt : String) (n st : Bool),
        ot ≠ "regression" → ot ≠ "classification" →
        ∃ e, initQSN ot mt n st = .error e) ∧
    (∀ (mt : String) (n st : Bool),
        (∃ cfg, initQSN "regression" mt n st = .ok cfg) ∧
        (∃ cfg, initQSN "classification" mt n st = .ok cfg)) ∧
    (∀ (cfg : QSNConfig) (net : Tensor → Tensor → Tensor)
        (sm : Tensor → Tensor) (rand : List ℕ → Tensor) (avg : ℚ)
        (i1 i2 : Tensor) (rts ats : List ℕ),
        cfg.is_neural_model = false → cfg.model_type ≠ "random" →
        cfg.model_type ≠ "average" → cfg.model_type ≠ "probability" →
        getOutputsPreds cfg net sm rand avg i1 i2 rts ats = none) := by
  refine ⟨?_, ?_, ?_⟩
  · intro ot mt n st h1 h2
    unfold initQSN
    rw [if_neg h1, if_neg h2]
    exact ⟨_, rfl⟩
  · intro mt n st
    exact ⟨⟨_, rfl⟩, ⟨_, rfl⟩⟩
  · intro cfg net sm rand avg i1 i2 rts ats hn h1 h2 h3
    unfold getOutputsPreds outputsBranch
    rw [hn]
    simp [h1, h2, h3]

/-- Witness for C6: `output_type = "foo"` fails at construction;
`model_type = "banana"` passes construction for regression and fails at
batch time in `get_outputs_preds`. -/
theorem config_error_timing_witness :
    ("foo" : String) ≠ "regression" ∧ ("foo" : String) ≠ "classification" ∧
    (∃ e, initQSN "foo" "average" false false = .error e) ∧
    (∃ cfg, initQSN "regression" "banana" false false = .ok cfg) ∧
    cfgBanana.is_neural_model = false ∧ cfgBanana.model_type ≠ "random" ∧
    cfgBanana.model_type ≠ "average" ∧
    cfgBanana.model_type ≠ "probability" ∧
    getOutputsPreds cfgBanana netZ id randZ 0 tEmpty tEmpty [2] [2] =
      none :=
  ⟨by decide, by decide,
    config_error_timing.1 "foo" "average" false false (by decide) (by decide),
    (config_error_timing.2.1 "banana" false false).1,
    rfl, by decide, by decide, by decide,
    config_error_timing.2.2 cfgBanana netZ id randZ 0 tEmpty tEmpty [2] [2]
      rfl (by decide) (by decide) (by decide)⟩

theorem runEpochFold_nontrain {B P O G : Type}
    (forward : Bool → P → B → O) (lossGrad : P → B → G)
    (optStep : P → G → P) (phase : Phase) (hph : phase ≠ Phase.train) :
    ∀ (bs : List B) (p : P) (acc : List O) (n : ℕ),
      bs.foldl (runEpochStep forward lossGrad optStep phase) (p, acc, n) =
        (p, acc ++ bs.map (forward false p), n) := by
  intro bs
  induction bs with
  | nil => intro p acc n; simp
  | cons b bs ih =>
    intro p acc n
    have hb : decide (phase = Phase.train) = false := decide_eq_false hph
    simp only [List.foldl_cons, List.map_cons, runEpochStep, hb,
      if_neg hph, ih]
    simp

/-- C7: for every call to `run_epoch` with phase `validation` or `test`,
the model parameters are unchanged — no gradient is computed and no
optimizer step is applied (the backward+step branch runs only under
`phase == "train"`, trainer.py lines 193–205) — and, given identical
weights and inputs, the validation and test passes produce identical
forward results (both run the model in eval mode, lines 170–172). -/
theorem nontrain_phases_frame {B P O G : Type}
    (forward : Bool → P → B → O) (lossGrad : P → B → G)
    (optStep : P → G → P) (phase : Phase) (p0 : P) (batches : List B)
    (hph : phase = Phase.validation ∨ phase = Phase.test) :
    (runEpochState forward lossGrad optStep phase p0 batches).1 = p0 ∧
    (runEpochState forward lossGrad optStep phase p0 batches).2.2 = 0 ∧
    (runEpochState forward lossGrad optStep Phase.validation p0
        batches).2.1 =
      (runEpochState forward lossGrad optStep Phase.test p0 batches).2.1 := by
  have hne : phase ≠ Phase.train := by
    rcases hph with rfl | rfl <;> decide
  rw [runEpochState, runEpochFold_nontrain forward lossGrad optStep phase hne]
  rw [runEpochState, runEpochFold_nontrain forward lossGrad optStep
    Phase.validation (by decide)]
  rw [runEpochState, runEpochFold_nontrain forward lossGrad optStep
    Phase.test (by decide)]
  exact ⟨rfl, rfl, rfl⟩

/-- Witness for C7: a concrete validation pass over two batches with
rational "parameters" leaves the parameters and step count untouched and
matches the test pass's forward outputs. -/
theorem nontrain_phases_frame_witness :
    (Phase.validation = Phase.validation ∨
      Phase.validation = Phase.test) ∧
    (runEpochState (fun m p b => p + b + (if m then 100 else 0))
        (fun p b => p * b) (fun p g => p - g) Phase.validation (5 : ℚ)
        [1, 2]).1 = 5 ∧
    (runEpochState (fun m p b => p + b + (if m then 100 else 0))
        (fun p b => p * b) (fun p g => p - g) Phase.validation (5 : ℚ)
        [1, 2]).2.2 = 0 ∧
    (runEpochState (fun m p b => p + b + (if m then 100 else 0))
        (fun p b => p * b) (fun p g => p - g) Phase.validation (5 : ℚ)
        [1, 2]).2.1 =
      (runEpochState (fun m p b => p + b + (if m then 100 else 0))
        (fun p b => p * b) (fun p g => p - g) Phase.test (5 : ℚ)
        [1, 2]).2.1 :=
  ⟨Or.inl rfl,
    nontrain_phases_frame (fun m p b => p + b + (if m then 100 else 0))
      (fun p b => p * b) (fun p g => p - g) Phase.validation 5 [1, 2]
      (Or.inl rfl)⟩

/-- C8: for the `probability` model type, the per-sample output vector is
the softmax of the class logits, whose components sum to 1 over the
classes (any positive number of classes); and no per-sample
`filename label prediction` text line is written — the prediction file is
the single serialized list of accumulated per-sample probability vectors,
never a text file. -/
theorem softmax_probability_outputs :
    (∀ (n : ℕ) (v : Fin n → ℝ), 0 < n → ∑ i, softmaxRow n v i = 1) ∧
    (∀ (epoch : ℕ) (sel : String) (s : EpochScore)
        (batches : List BatchOut) (x : ℚ),
        epochMainMetric sel s = some x →
        runEpochPredFile "probability" epoch sel s batches =
          some (.dump (batches.map BatchOut.outputs).flatten) ∧
        ∀ lines, runEpochPredFile "probability" epoch sel s batches ≠
          some (.text lines)) := by
  constructor
  · intro n v hn
    have hne : Nonempty (Fin n) := ⟨⟨0, hn⟩⟩
    have hpos : (0 : ℝ) < ∑ j, Real.exp (v j) :=
      Finset.sum_pos (fun j _ => Real.exp_pos _) Finset.univ_nonempty
    unfold softmaxRow
    rw [← Finset.sum_div, div_self (ne_of_gt hpos)]
  · intro epoch sel s batches x hx
    obtain ⟨⟨a, b⟩, hsplit, -⟩ := Option.bind_eq_some.mp hx
    have hfile : runEpochPredFile "probability" epoch sel s batches =
        some (.dump (batches.map BatchOut.outputs).flatten) := by
      simp [runEpochPredFile, hsplit, hx]
    refine ⟨hfile, fun lines hcontra => ?_⟩
    rw [hfile] at hcontra
    simp at hcontra

/-- Witness for C8: a 4-class all-zero logit vector has softmax summing
to 1, and a concrete probability epoch over one batch dumps exactly its
output vectors. -/
theorem softmax_probability_outputs_witness :
    (0 : ℕ) < 4 ∧
    ∑ i, softmaxRow 4 (fun _ => 0) i = 1 ∧
    epochMainMetric "recall_micro"
      ((0 : ℚ), (0 : ℕ), (0 : ℕ), (0, 0, 0), (0, 0, 0), (0, 0, 0)) =
      some 0 ∧
    runEpochPredFile "probability" 1 "recall_micro"
      ((0 : ℚ), (0 : ℕ), (0 : ℕ), (0, 0, 0), (0, 0, 0), (0, 0, 0))
      [⟨["a"], [0], [0], [[1, 0]]⟩] = some (.dump [[1, 0]]) :=
  ⟨by decide,
    softmax_probability_outputs.1 4 (fun _ => 0) (by decide),
    by decide,
    (softmax_probability_outputs.2 1 "recall_micro"
      ((0 : ℚ), (0 : ℕ), (0 : ℕ), (0, 0, 0), (0, 0, 0), (0, 0, 0))
      [⟨["a"], [0], [0], [[1, 0]]⟩] 0 (by decide)).1⟩

/-- C9: for every non-probability `run_epoch` pass, the prediction file
is a header line, then one `filename label prediction` line per sample in
loader order, then a single trailer line
`Epoch <NNN> (<selection-qualifier>) <metric-name>: <value>`; for the
probability model type the file is instead one serialized list of
per-sample probability vectors, with no header or trailer text. -/
theorem prediction_file_layout :
    (∀ (mt : String) (epoch : ℕ) (sel : String) (s : EpochScore)
        (batches : List BatchOut) (a b : String) (x : ℚ),
        mt ≠ "probability" →
        splitSelection sel = some (a, b) →
        epochMainMetric sel s = some x →
        runEpochPredFile mt epoch sel s batches =
          some (.text ([.header] ++ (batches.map sampleLines).flatten ++
            [.trailer epoch b a x]))) ∧
    (∀ (epoch : ℕ) (sel : String) (s : EpochScore)
        (batches : List BatchOut) (x : ℚ),
        epochMainMetric sel s = some x →
        runEpochPredFile "probability" epoch sel s batches =
          some (.dump (batches.map BatchOut.outputs).flatten)) := by
  constructor
  · intro mt epoch sel s batches a b x hmt hsplit hx
    simp [runEpochPredFile, hsplit, hx, hmt]
  · intro epoch sel s batches x hx
    obtain ⟨⟨a, b⟩, hsplit, -⟩ := Option.bind_eq_some.mp hx
    simp [runEpochPredFile, hsplit, hx]

/-- Witness for C9: a concrete non-probability epoch (model `inception`,
epoch 7, selector `recall_micro`, one two-sample batch) produces exactly
header, two sample lines, and the trailer; the hypotheses are
discharged at these concrete inputs. -/
theorem prediction_file_layout_witness :
    ("inception" : String) ≠ "probability" ∧
    splitSelection "recall_micro" = some ("recall", "micro") ∧
    epochMainMetric "recall_micro"
      ((0 : ℚ), (0 : ℕ), (0 : ℕ), (0, 3, 0), (0, 0, 0), (0, 0, 0)) =
      some 3 ∧
    runEpochPredFile "inception" 7 "recall_micro"
      ((0 : ℚ), (0 : ℕ), (0 : ℕ), (0, 3, 0), (0, 0, 0), (0, 0, 0))
      [⟨["a", "b"], [0, 1], [0, 1], [[]]⟩] =
      some (.text ([.header] ++
        ([(⟨["a", "b"], [0, 1], [0, 1], [[]]⟩ : BatchOut)].map
          sampleLines).flatten ++
        [.trailer 7 "micro" "recall" 3])) :=
  ⟨by decide, by decide, by decide,
    prediction_file_layout.1 "inception" 7 "recall_micro"
      ((0 : ℚ), (0 : ℕ), (0 : ℕ), (0, 3, 0), (0, 0, 0), (0, 0, 0))
      [⟨["a", "b"], [0, 1], [0, 1], [[]]⟩] "recall" "micro" 3
      (by decide) (by decide) (by decide)⟩

/-- C10: for a learned (neural) model in classification mode,
`get_outputs_preds` fails on every batch of size 1: the network output of
shape `(1, n_classes)` is squeezed to a rank-1 (or, for one class,
rank-0) tensor, and `torch.max(outputs, 1)` then has no dimension 1 to
reduce over — the learned classification path does not tolerate a final
batch of exactly one sample. -/
theorem batch_of_one_classification_fails
    (cfg : QSNConfig) (net : Tensor → Tensor → Tensor)
    (sm : Tensor → Tensor) (rand : List ℕ → Tensor) (avg : ℚ)
    (i1 i2 : Tensor) (rts ats : List ℕ) (c : ℕ)
    (hneu : cfg.is_neural_model = true)
    (hcls : cfg.output_type = "classification")
    (hshape : (net i1 i2).shape = [1, c]) :
    getOutputsPreds cfg net sm rand avg i1 i2 rts ats = none := by
  simp only [getOutputsPreds, outputsBranch, hneu, if_true, Option.some_bind]
  rw [discretize, hcls, if_pos rfl]
  by_cases hc : c = 1
  · subst hc
    simp [squeeze, hshape, torchMaxDim1]
  · simp [squeeze, hshape, torchMaxDim1, hc]

/-- Witness for C10: a learned classification model whose network returns
a `(1, 4)` output for a batch of one fails in `get_outputs_preds`. -/
theorem batch_of_one_classification_fails_witness :
    cfgNeuCls.is_neural_model = true ∧
    cfgNeuCls.output_type = "classification" ∧
    ((fun (_ _ : Tensor) => (⟨[1, 4], [0, 1, 2, 3]⟩ : Tensor))
      tEmpty tEmpty).shape = [1, 4] ∧
    getOutputsPreds cfgNeuCls
      (fun (_ _ : Tensor) => (⟨[1, 4], [0, 1, 2, 3]⟩ : Tensor)) id randZ 0
      tEmpty tEmpty [1] [1] = none :=
  ⟨rfl, rfl, rfl,
    batch_of_one_classification_fails cfgNeuCls
      (fun (_ _ : Tensor) => (⟨[1, 4], [0, 1, 2, 3]⟩ : Tensor)) id randZ 0
      tEmpty tEmpty [1] [1] 4 rfl rfl rfl⟩

end Caladrius
